import Mathlib

/-!
Verification development for the Finance Tracker React Native application.

The TypeScript sources are shallowly embedded: each relevant function of the
repository (the zustand store `useStore.ts`, the recurring-transaction
materializer `recurringTransactions.ts`, the budget-health classifier
`budgetAlerts.ts`, the Firestore sync layer and the AddTransaction screen's
save handler) is translated into an executable Lean definition, and the
specification's properties are proved about those definitions.

Modelling conventions:
* A JavaScript `Date` is modelled as a civil datetime `DateTime`
  (year/month/day plus milliseconds within the day).  JS `Date` comparison
  and `getTime()` subtraction go through `toMs`, which linearises a civil
  datetime to milliseconds on the proleptic Gregorian calendar.  The epoch
  of `toMs` is year 0 rather than 1970; only differences and comparisons of
  `toMs` values are ever used, so the constant offset is irrelevant.
* JS numbers are modelled as exact rationals `ℚ`; the claims under study
  concern comparison/threshold logic, not floating-point rounding.
* `JSON.stringify`/`JSON.parse` of the four persisted collections is
  modelled field-for-field; `Date` fields serialise through `isoString`
  (the `Date.prototype.toISOString` format `YYYY-MM-DDTHH:MM:SS.sssZ`) and
  are revived by `parseISO` (`new Date(isoString)`).
-/

namespace FinanceTracker

/-! ## Civil datetime model for JS `Date` -/

/-- A JS `Date` value: a civil Gregorian datetime.  `month` is 1–12,
`day` is 1–31, `msOfDay` is the milliseconds elapsed since midnight. -/
structure DateTime where
  year : Int
  month : Nat
  day : Nat
  msOfDay : Nat
deriving DecidableEq, Repr

/-- Gregorian leap-year rule (as used by JS `Date`). -/
def isLeapYear (y : Int) : Bool :=
  (y % 4 == 0 && y % 100 != 0) || y % 400 == 0

/-- Number of days in a month of a given year. -/
def daysInMonth (y : Int) (m : Nat) : Nat :=
  if m = 2 then (if isLeapYear y then 29 else 28)
  else if m = 4 ∨ m = 6 ∨ m = 9 ∨ m = 11 then 30
  else 31

/-- Days in the months of year `y` strictly before month `m`. -/
def daysBeforeMonth (y : Int) (m : Nat) : Nat :=
  (List.range (m - 1)).foldl (fun acc i => acc + daysInMonth y (i + 1)) 0

/-- Signed count of leap years `k` with `0 ≤ k < y` (negative for `y < 0`),
so that `leapCountTo b - leapCountTo a` counts leap years in `[a, b)`. -/
def leapCountTo (y : Int) : Int :=
  (y + 3).fdiv 4 - (y + 99).fdiv 100 + (y + 399).fdiv 400

/-- Day number of a civil date, with day 0 = January 1 of year 0. -/
def daysFromCivil (y : Int) (m d : Nat) : Int :=
  365 * y + leapCountTo y + daysBeforeMonth y m + d - 1

/-- Linearisation of a `DateTime` to milliseconds (epoch: year 0).
Models `Date.prototype.getTime` up to a constant offset; all uses in the
embedded code are comparisons or differences, which the offset cancels. -/
def toMs (dt : DateTime) : Int :=
  86400000 * daysFromCivil dt.year dt.month dt.day + dt.msOfDay

/-- The datetime is a well-formed JS `Date` (JS normalises all dates). -/
def ValidDateTime (dt : DateTime) : Prop :=
  1 ≤ dt.month ∧ dt.month ≤ 12 ∧ 1 ≤ dt.day ∧
    dt.day ≤ daysInMonth dt.year dt.month ∧ dt.msOfDay < 86400000

instance (dt : DateTime) : Decidable (ValidDateTime dt) := by
  unfold ValidDateTime; infer_instance

/-! ## `date-fns` arithmetic used by the materializer -/

/-- Advance a civil date by one day, rolling over month/year boundaries. -/
def addOneDay (dt : DateTime) : DateTime :=
  if dt.day < daysInMonth dt.year dt.month then { dt with day := dt.day + 1 }
  else if dt.month < 12 then { dt with month := dt.month + 1, day := 1 }
  else { dt with year := dt.year + 1, month := 1, day := 1 }

/-- Model of `date-fns` `addDays date n`. -/
def addDays (dt : DateTime) : Nat → DateTime
  | 0 => dt
  | n + 1 => addDays (addOneDay dt) n

/-- Model of `date-fns` `addWeeks date n`. -/
def addWeeks (dt : DateTime) (n : Nat) : DateTime :=
  addDays dt (7 * n)

/-- Model of `date-fns` `addMonths date n`: month arithmetic with the day-of-month
clamped to the target month's length (Jan 31 + 1 month = Feb 28/29). -/
def addMonths (dt : DateTime) (n : Nat) : DateTime :=
  let t := (dt.month - 1) + n
  let y := dt.year + t / 12
  let m := t % 12 + 1
  { dt with year := y, month := m, day := min dt.day (daysInMonth y m) }

/-- Model of `date-fns` `addYears date n`: year arithmetic with the day clamped
(Feb 29 + 1 year = Feb 28). -/
def addYears (dt : DateTime) (n : Nat) : DateTime :=
  { dt with year := dt.year + n,
            day := min dt.day (daysInMonth (dt.year + n) dt.month) }

/-! ## ISO-8601 serialisation (`Date.prototype.toISOString` / `new Date(s)`) -/

/-- The decimal digit character for `0 ≤ n ≤ 9` (codepoint 48 is `0`). -/
def digitChar (n : Nat) : Char :=
  if n < 10 then Char.ofNat (48 + n) else '*'

/-- The value of a decimal digit character, `none` for a non-digit
(codepoints 48–57 are the digits). -/
def digitVal? (c : Char) : Option Nat :=
  if 48 ≤ c.toNat ∧ c.toNat ≤ 57 then some (c.toNat - 48) else none

/-- Two-digit zero-padded decimal rendering. -/
def pad2 (n : Nat) : List Char :=
  [digitChar (n / 10 % 10), digitChar (n % 10)]

/-- Three-digit zero-padded decimal rendering. -/
def pad3 (n : Nat) : List Char :=
  [digitChar (n / 100 % 10), digitChar (n / 10 % 10), digitChar (n % 10)]

/-- Four-digit zero-padded decimal rendering. -/
def pad4 (n : Nat) : List Char :=
  [digitChar (n / 1000 % 10), digitChar (n / 100 % 10),
   digitChar (n / 10 % 10), digitChar (n % 10)]

/-- Model of `Date.prototype.toISOString`: `YYYY-MM-DDTHH:MM:SS.sssZ` (UTC). -/
def isoString (dt : DateTime) : String :=
  ⟨pad4 dt.year.toNat ++ '-' :: pad2 dt.month ++ '-' :: pad2 dt.day ++
   'T' :: pad2 (dt.msOfDay / 3600000) ++ ':' :: pad2 (dt.msOfDay / 60000 % 60) ++
   ':' :: pad2 (dt.msOfDay / 1000 % 60) ++ '.' :: pad3 (dt.msOfDay % 1000) ++ ['Z']⟩

/-- Model of `new Date(s)` on an ISO string: fixed-width parse with range
validation; `none` models an Invalid Date. -/
def parseISO (s : String) : Option DateTime :=
  match s.data with
  | [y1, y2, y3, y4, a1, m1, m2, a2, d1, d2, a3, h1, h2, a4, n1, n2, a5,
     e1, e2, a6, f1, f2, f3, a7] =>
    if a1 = '-' ∧ a2 = '-' ∧ a3 = 'T' ∧ a4 = ':' ∧ a5 = ':' ∧ a6 = '.' ∧ a7 = 'Z' then
      match digitVal? y1, digitVal? y2, digitVal? y3, digitVal? y4,
            digitVal? m1, digitVal? m2, digitVal? d1, digitVal? d2,
            digitVal? h1, digitVal? h2, digitVal? n1, digitVal? n2,
            digitVal? e1, digitVal? e2, digitVal? f1, digitVal? f2, digitVal? f3 with
      | some v1, some v2, some v3, some v4, some vm1, some vm2, some vd1, some vd2,
        some vh1, some vh2, some vn1, some vn2, some ve1, some ve2,
        some vf1, some vf2, some vf3 =>
        let year : Int := (v1 * 1000 + v2 * 100 + v3 * 10 + v4 : Nat)
        let month := vm1 * 10 + vm2
        let day := vd1 * 10 + vd2
        let hh := vh1 * 10 + vh2
        let mi := vn1 * 10 + vn2
        let ss := ve1 * 10 + ve2
        let ms := vf1 * 100 + vf2 * 10 + vf3
        if 1 ≤ month ∧ month ≤ 12 ∧ 1 ≤ day ∧ day ≤ daysInMonth year month ∧
            hh ≤ 23 ∧ mi ≤ 59 ∧ ss ≤ 59 then
          some ⟨year, month, day, hh * 3600000 + mi * 60000 + ss * 1000 + ms⟩
        else none
      | _, _, _, _, _, _, _, _, _, _, _, _, _, _, _, _, _ => none
    else none
  | _ => none

/-! ## Entity types (`src/types/index.ts`) -/

/-- The union `type TransactionType = 'income' | 'expense'`. -/
inductive TransactionType where
  | income
  | expense
deriving DecidableEq, Repr

/-- The `interface Transaction` from `src/types/index.ts`. -/
structure Transaction where
  id : String
  amount : ℚ
  type : TransactionType
  category : String
  categoryId : String
  description : String
  date : DateTime
  receiptImage : Option String
  createdAt : DateTime
  updatedAt : DateTime
deriving DecidableEq, Repr

/-- The `interface Category` from `src/types/index.ts`. -/
structure Category where
  id : String
  name : String
  icon : String
  color : String
  type : TransactionType
  budgetLimit : Option ℚ
deriving DecidableEq, Repr

/-- The `interface CategoryBudget` from `src/types/index.ts`. -/
structure CategoryBudget where
  categoryId : String
  limit : ℚ
  spent : ℚ
deriving DecidableEq, Repr

/-- The `interface Budget` from `src/types/index.ts`. -/
structure Budget where
  id : String
  month : String
  totalBudget : ℚ
  categoryBudgets : List CategoryBudget
deriving DecidableEq, Repr

/-- The `interface UserSettings` from `src/types/index.ts`. -/
structure UserSettings where
  currency : String
  darkMode : Bool
  biometricEnabled : Bool
  notifications : Bool
  language : String
deriving DecidableEq, Repr

/-- The union `type RecurringFrequency = 'daily' | 'weekly' | 'monthly' | 'yearly'`. -/
inductive RecurringFrequency where
  | daily
  | weekly
  | monthly
  | yearly
deriving DecidableEq, Repr

/-- The `interface RecurringTransaction` from `src/types/index.ts`. -/
structure RecurringTransaction where
  id : String
  amount : ℚ
  type : TransactionType
  category : String
  categoryId : String
  description : String
  frequency : RecurringFrequency
  startDate : DateTime
  endDate : Option DateTime
  lastProcessed : Option DateTime
  isActive : Bool
  createdAt : DateTime
deriving DecidableEq, Repr

/-- The type `Omit<Transaction, 'id' | 'createdAt' | 'updatedAt'>`: the caller-supplied
part of a transaction, as passed to `addTransaction` and produced by the
recurring-transaction materializer. -/
structure TransactionInput where
  amount : ℚ
  type : TransactionType
  category : String
  categoryId : String
  description : String
  date : DateTime
  receiptImage : Option String
deriving DecidableEq, Repr

/-! ## Default categories (`src/constants/categories.ts`) -/

/-- The constant `DEFAULT_EXPENSE_CATEGORIES` from `src/constants/categories.ts`. -/
def DEFAULT_EXPENSE_CATEGORIES : List Category :=
  [⟨"cat_food", "Food & Dining", "🍔", "#FF6B6B", .expense, none⟩,
   ⟨"cat_transport", "Transportation", "🚗", "#4ECDC4", .expense, none⟩,
   ⟨"cat_shopping", "Shopping", "🛍️", "#95E1D3", .expense, none⟩,
   ⟨"cat_entertainment", "Entertainment", "🎬", "#F38181", .expense, none⟩,
   ⟨"cat_bills", "Bills & Utilities", "💡", "#AA96DA", .expense, none⟩,
   ⟨"cat_health", "Health & Fitness", "💊", "#FCBAD3", .expense, none⟩,
   ⟨"cat_education", "Education", "📚", "#A8D8EA", .expense, none⟩,
   ⟨"cat_travel", "Travel", "✈️", "#FFD93D", .expense, none⟩,
   ⟨"cat_groceries", "Groceries", "🛒", "#6BCF7F", .expense, none⟩,
   ⟨"cat_other_expense", "Other", "📦", "#B8B8D1", .expense, none⟩]

/-- The constant `DEFAULT_INCOME_CATEGORIES` from `src/constants/categories.ts`. -/
def DEFAULT_INCOME_CATEGORIES : List Category :=
  [⟨"cat_salary", "Salary", "💰", "#2ECC71", .income, none⟩,
   ⟨"cat_freelance", "Freelance", "💼", "#58D68D", .income, none⟩,
   ⟨"cat_investment", "Investment", "📈", "#52BE80", .income, none⟩,
   ⟨"cat_gift", "Gift", "🎁", "#7DCEA0", .income, none⟩,
   ⟨"cat_other_income", "Other", "💵", "#A9DFBF", .income, none⟩]

/-- The constant `ALL_CATEGORIES` from `src/constants/categories.ts`. -/
def ALL_CATEGORIES : List Category :=
  DEFAULT_EXPENSE_CATEGORIES ++ DEFAULT_INCOME_CATEGORIES

/-! ## Persistence model (`AsyncStorage` + JSON) -/

/-- A transaction as it sits in a persisted JSON blob: the three `Date`
fields have been serialised to their ISO-8601 strings by
`JSON.stringify`; all other fields round-trip through JSON unchanged. -/
structure StoredTransaction where
  id : String
  amount : ℚ
  type : TransactionType
  category : String
  categoryId : String
  description : String
  date : String
  receiptImage : Option String
  createdAt : String
  updatedAt : String
deriving DecidableEq, Repr

/-- Serialisation by `JSON.stringify` of a single transaction. -/
def encodeTxn (t : Transaction) : StoredTransaction :=
  ⟨t.id, t.amount, t.type, t.category, t.categoryId, t.description,
   isoString t.date, t.receiptImage, isoString t.createdAt, isoString t.updatedAt⟩

/-- The `DateTime` that `new Date(..)` yields on an unparseable string
(an Invalid Date, every field zeroed in this model). -/
def invalidDate : DateTime := ⟨0, 0, 0, 0⟩

/-- Model of `new Date(s)` as used by `loadData`'s revival step: parse the ISO
string, collapsing to `invalidDate` when the string is not valid ISO. -/
def jsNewDate (s : String) : DateTime :=
  (parseISO s).getD invalidDate

/-- The date-revival map applied by `loadData` to every stored transaction:
`{ ...txn, date: new Date(txn.date), createdAt: new Date(txn.createdAt),
updatedAt: new Date(txn.updatedAt) }`. -/
def decodeStoredTxn (t : StoredTransaction) : Transaction :=
  ⟨t.id, t.amount, t.type, t.category, t.categoryId, t.description,
   jsNewDate t.date, t.receiptImage, jsNewDate t.createdAt, jsNewDate t.updatedAt⟩

/-- The four independently keyed `AsyncStorage` blobs
(`@finance_tracker_transactions` … `@finance_tracker_settings`);
`none` models an absent key. -/
structure Storage where
  transactionsKey : Option (List StoredTransaction)
  categoriesKey : Option (List Category)
  budgetsKey : Option (List Budget)
  settingsKey : Option UserSettings
deriving DecidableEq, Repr

/-! ## The zustand store (`src/store/useStore.ts`) -/

/-- The data portion of the zustand `AppState`. -/
structure AppState where
  transactions : List Transaction
  categories : List Category
  budgets : List Budget
  settings : UserSettings
  userId : Option String
  isOnline : Bool
  isSyncing : Bool
deriving DecidableEq, Repr

/-- Model of `saveData`: serialise all four collections wholesale into their
storage keys. -/
def saveData (st : AppState) (stor : Storage) : Storage :=
  { stor with
      transactionsKey := some (st.transactions.map encodeTxn),
      categoriesKey := some st.categories,
      budgetsKey := some st.budgets,
      settingsKey := some st.settings }

/-- Model of `loadData`: read each key, falling back to the typed default
(`[]`, `ALL_CATEGORIES`, `[]`, the current settings) when the key is
absent, and revive the transactions' date strings into `Date`s. -/
def loadData (stor : Storage) (st : AppState) : AppState :=
  { st with
      transactions := ((stor.transactionsKey).getD []).map decodeStoredTxn,
      categories := (stor.categoriesKey).getD ALL_CATEGORIES,
      budgets := (stor.budgetsKey).getD [],
      settings := (stor.settingsKey).getD st.settings }

/-- The id string built by `addTransaction`:
`txn_${Date.now()}_${Math.random().toString(36).substr(2, 9)}`.
`Date.now()` is the clock reading `now`; the random suffix is the
oracle input `rand`. -/
def genTxnId (now : DateTime) (rand : String) : String :=
  "txn_" ++ toString (toMs now) ++ "_" ++ rand

/-- Outcome of a store mutation: the new in-memory state, the storage
after the scheduled `saveData`, and the transactions pushed to the
remote store (`syncTransaction` calls, empty when no user is logged in). -/
structure StoreResult where
  state : AppState
  storage : Storage
  pushedTxns : List Transaction
deriving DecidableEq, Repr

/-- The `Transaction` record `addTransaction` builds from its input:
`{ ...transactionData, id: txn_.., createdAt: new Date(), updatedAt: new Date() }`. -/
def realizeInput (input : TransactionInput) (now : DateTime) (rand : String) :
    Transaction :=
  ⟨genTxnId now rand, input.amount, input.type, input.category,
   input.categoryId, input.description, input.date, input.receiptImage,
   now, now⟩

/-- Model of `addTransaction` from `useStore.ts`: build the new record (fresh id,
`createdAt`/`updatedAt` stamped with the current clock), prepend it to the
in-memory list, persist, and push to Firestore when a user is logged in.
The budget-alert notification side effect is outside the modelled
effects (it dispatches no state mutation). -/
def addTransaction (st : AppState) (stor : Storage) (input : TransactionInput)
    (now : DateTime) (rand : String) : StoreResult :=
  let newTransaction : Transaction := realizeInput input now rand
  let st' := { st with transactions := newTransaction :: st.transactions }
  { state := st',
    storage := saveData st' stor,
    pushedTxns := match st.userId with
      | some _ => [newTransaction]
      | none => [] }

/-- Model of `setBudget` from `useStore.ts`: drop any budget with the same month,
then append the submitted budget. -/
def setBudget (st : AppState) (stor : Storage) (budget : Budget) : StoreResult :=
  let st' := { st with
    budgets := (st.budgets.filter (fun b => b.month ≠ budget.month)) ++ [budget] }
  { state := st',
    storage := saveData st' stor,
    pushedTxns := [] }

/-- The type `Partial<Budget>`: a partial patch; `none` marks an absent field. -/
structure BudgetPatch where
  id : Option String
  month : Option String
  totalBudget : Option ℚ
  categoryBudgets : Option (List CategoryBudget)
deriving DecidableEq, Repr

/-- JS object spread `{ ...budget, ...updates }` for a budget patch. -/
def applyBudgetPatch (b : Budget) (p : BudgetPatch) : Budget :=
  ⟨p.id.getD b.id, p.month.getD b.month, p.totalBudget.getD b.totalBudget,
   p.categoryBudgets.getD b.categoryBudgets⟩

/-- Model of `updateBudget` from `useStore.ts`: patch the budget with the given id
in place; no month-uniqueness check is performed. -/
def updateBudget (st : AppState) (stor : Storage) (id : String)
    (updates : BudgetPatch) : StoreResult :=
  let st' := { st with
    budgets := st.budgets.map (fun b => if b.id = id then applyBudgetPatch b updates else b) }
  { state := st',
    storage := saveData st' stor,
    pushedTxns := [] }

/-- The `syncWithFirestore` outcome: the state after the bootstrap merge, the
storage after the scheduled `saveData`, the transactions pushed one by
one (`syncTransaction` loop), and the wholesale category push. -/
structure SyncResult where
  state : AppState
  storage : Storage
  pushedTxns : List Transaction
  pushedCategories : Option (List Category)
deriving DecidableEq, Repr

/-- Model of `syncWithFirestore` from `useStore.ts` (the bootstrap merge run on
identity attach).  The four remote fetch results are parameters; a failed
fetch has already been defaulted (`.catch(() => [])` / `() => null`).
Remote non-empty ⇒ remote replaces local wholesale; remote empty and
local non-empty ⇒ every local transaction is pushed individually. -/
def syncWithFirestore (st : AppState) (stor : Storage)
    (remoteTxns : List Transaction) (remoteCats : List Category)
    (remoteBudgets : List Budget) (remoteSettings : Option UserSettings) :
    SyncResult :=
  match st.userId with
  | none => ⟨st, stor, [], none⟩
  | some _ =>
    let localTransactions := st.transactions
    let localCategories := st.categories
    let mergedTransactions :=
      if remoteTxns.length > 0 then remoteTxns else localTransactions
    let mergedCategories :=
      if remoteCats.length > 0 then remoteCats else localCategories
    let st' := { st with
      transactions := mergedTransactions,
      categories := if mergedCategories.length > 0 then mergedCategories else ALL_CATEGORIES,
      budgets := remoteBudgets,
      settings := remoteSettings.getD st.settings,
      isSyncing := false }
    { state := st',
      storage := saveData st' stor,
      pushedTxns :=
        if localTransactions.length > 0 ∧ remoteTxns.length = 0 then
          localTransactions
        else [],
      pushedCategories :=
        if localCategories.length > 0 ∧ remoteCats.length = 0 then
          some localCategories
        else none }

/-- The real-time listener callback from `subscribeToRealtimeUpdates`:
on every snapshot (the full, already-decoded remote transaction
collection) replace the in-memory transaction list wholesale and persist
it to the transactions storage key; nothing else is touched. -/
def onTransactionsSnapshot (st : AppState) (stor : Storage)
    (snapshot : List Transaction) : AppState × Storage :=
  ({ st with transactions := snapshot },
   { stor with transactionsKey := some (snapshot.map encodeTxn) })

/-! ## `handleSave` (`src/screens/AddTransactionScreen.tsx`) -/

/-- Outcome of the screen's save handler: the (possibly unchanged) store
state/storage, the remote pushes issued, and the alert title surfaced to
the user on a validation failure (`none` = saved and navigated back). -/
structure HandleSaveResult where
  state : AppState
  storage : Storage
  pushedTxns : List Transaction
  alert : Option String
deriving DecidableEq, Repr

/-- Model of `handleSave` from `AddTransactionScreen.tsx`.  `amount` is the
`parseFloat` reading of the amount text field (`none` models the empty
input caught by `!amount`).  A non-positive or missing amount, a missing
category selection, or an unknown category id is rejected with an alert
before `addTransaction` is ever invoked; otherwise the store's
`addTransaction` runs with the screen's field values. -/
def handleSave (st : AppState) (stor : Storage) (amount : Option ℚ)
    (type : TransactionType) (selectedCategoryId : String)
    (description : String) (now : DateTime) (rand : String) :
    HandleSaveResult :=
  match amount with
  | none => ⟨st, stor, [], some "Invalid Amount"⟩
  | some v =>
    if v ≤ 0 then ⟨st, stor, [], some "Invalid Amount"⟩
    else if selectedCategoryId = "" then ⟨st, stor, [], some "Category Required"⟩
    else
      match st.categories.find? (fun cat => cat.id = selectedCategoryId) with
      | none => ⟨st, stor, [], some "Error"⟩
      | some category =>
        let r := addTransaction st stor
          ⟨v, type, category.name, selectedCategoryId,
           (if description = "" then category.name else description), now, none⟩
          now rand
        ⟨r.state, r.storage, r.pushedTxns, none⟩

/-! ## Recurring-transaction materializer (`src/utils/recurringTransactions.ts`) -/

/-- Model of `getNextDate` from `recurringTransactions.ts`: advance a date by one
frequency step via the `date-fns` helpers. -/
def getNextDate (date : DateTime) (frequency : RecurringFrequency) : DateTime :=
  match frequency with
  | .daily => addDays date 1
  | .weekly => addWeeks date 1
  | .monthly => addMonths date 1
  | .yearly => addYears date 1

/-- The auto-generated description tag `[Auto: ${recurring.description}]`. -/
def autoTag (description : String) : String :=
  "[Auto: " ++ description ++ "]"

/-- JS `String.prototype.includes`: substring containment. -/
def jsIncludes (s pattern : String) : Bool :=
  decide (pattern.data <:+: s.data)

/-- The materializer's dedup test for one candidate occurrence: an
existing transaction matches when its description contains the
definition's auto-tag and its date is within 24 hours of the cursor. -/
def matchesAuto (description : String) (nextDate : DateTime)
    (txn : Transaction) : Bool :=
  jsIncludes txn.description (autoTag description) &&
    (toMs txn.date - toMs nextDate).natAbs < 24 * 60 * 60 * 1000

/-- The transaction record the materializer pushes for one occurrence. -/
def mkRecurringTxn (recurring : RecurringTransaction) (nextDate : DateTime) :
    TransactionInput :=
  ⟨recurring.amount, recurring.type, recurring.category, recurring.categoryId,
   autoTag recurring.description, nextDate, none⟩

/-- The materializer's inner `while (nextDate <= now)` loop for one
definition.  The loop is run on explicit fuel: each real frequency step
advances the date by at least one millisecond, so
`matFuel now cursor = (toMs now - toMs cursor) + 1` (in milliseconds,
see below) bounds the number of iterations; the fuel argument is a
function of the loop-invariant data only, so it never changes the dates
the loop visits relative to the source's unbounded loop. -/
def materializeLoop (now : DateTime) (recurring : RecurringTransaction)
    (existingTransactions : List Transaction) :
    Nat → DateTime → List TransactionInput
  | 0, _ => []
  | fuel + 1, nextDate =>
    if toMs nextDate ≤ toMs now then
      let rest := materializeLoop now recurring existingTransactions fuel
        (getNextDate nextDate recurring.frequency)
      if existingTransactions.any (matchesAuto recurring.description nextDate) then
        rest
      else
        mkRecurringTxn recurring nextDate :: rest
    else []

/-- Fuel for `materializeLoop`: the millisecond gap from the cursor to
`now`, plus one.  Each frequency step advances `toMs` by at least 1, so
this dominates the number of loop iterations. -/
def matFuel (now cursor : DateTime) : Nat :=
  (toMs now - toMs cursor).toNat + 1

/-- The guard `recurring.endDate && now > recurring.endDate`: the
definition has an end date that `now` has passed. -/
def recurringEnded (now : DateTime) (recurring : RecurringTransaction) : Bool :=
  match recurring.endDate with
  | some e => decide (toMs now > toMs e)
  | none => false

/-- Model of `processRecurringTransactions` from `recurringTransactions.ts`.  The
source reads the clock (`const now = new Date()`) at entry; here `now` is
the explicit first argument.  For each active, not-yet-ended definition
the cursor starts at `lastProcessed ?? startDate`, is advanced one
frequency step *before* the first check, and every advanced cursor value
`≤ now` without a matching auto-tagged transaction within 24 hours
produces one new transaction input. -/
def processRecurringTransactions (now : DateTime)
    (recurringTransactions : List RecurringTransaction)
    (existingTransactions : List Transaction) : List TransactionInput :=
  recurringTransactions.flatMap (fun recurring =>
    if !recurring.isActive then []
    else if recurringEnded now recurring then []
    else
      let lastProcessed := recurring.lastProcessed.getD recurring.startDate
      materializeLoop now recurring existingTransactions
        (matFuel now lastProcessed)
        (getNextDate lastProcessed recurring.frequency))

/-! ### Reference characterisation of the materializer

The cursor dates a definition's loop steps through, independently of the
transaction list — used to state that dedup suppression is entirely the
description-tag + 24-hour check against the existing list, and that no
cursor/`lastProcessed` state is consulted or advanced beyond the initial
`lastProcessed ?? startDate` read. -/

/-- The sequence of advanced cursor values `≤ now`, for the same fuel
policy as `materializeLoop`. -/
def visitedDates (now : DateTime) (frequency : RecurringFrequency) :
    Nat → DateTime → List DateTime
  | 0, _ => []
  | fuel + 1, nextDate =>
    if toMs nextDate ≤ toMs now then
      nextDate :: visitedDates now frequency fuel (getNextDate nextDate frequency)
    else []

/-- Reference form of the per-definition materialization: filter the
visited cursor dates by the dedup check against `existingTransactions`
alone, then build the records. -/
def refMaterializeOne (now : DateTime) (existingTransactions : List Transaction)
    (recurring : RecurringTransaction) : List TransactionInput :=
  if !recurring.isActive then []
  else if recurringEnded now recurring then []
  else
    let lastProcessed := recurring.lastProcessed.getD recurring.startDate
    ((visitedDates now recurring.frequency (matFuel now lastProcessed)
        (getNextDate lastProcessed recurring.frequency)).filter
      (fun d => !(existingTransactions.any (matchesAuto recurring.description d)))).map
      (mkRecurringTxn recurring)

/-- Reference form of the whole materializer. -/
def refMaterialize (now : DateTime)
    (recurringTransactions : List RecurringTransaction)
    (existingTransactions : List Transaction) : List TransactionInput :=
  recurringTransactions.flatMap (refMaterializeOne now existingTransactions)

/-! ### Committing materializer output through the normal add path -/

/-- Commit a list of produced transaction inputs through the store's
normal `addTransaction` path, one by one; `stamps` supplies the clock
reading and random suffix consumed by each individual add. -/
def commitProduced (st : AppState) (stor : Storage)
    (produced : List TransactionInput) (stamps : List (DateTime × String)) :
    AppState × Storage :=
  (produced.zip stamps).foldl
    (fun acc ps =>
      let r := addTransaction acc.1 acc.2 ps.1 ps.2.1 ps.2.2
      (r.state, r.storage))
    (st, stor)

/-! ## Budget health classifier (`src/utils/budgetAlerts.ts`) -/

/-- The three budget-health tiers returned by `getBudgetHealth`. -/
inductive BudgetHealth where
  | good
  | warning
  | danger
deriving DecidableEq, Repr

/-- Model of `getBudgetHealth` from `budgetAlerts.ts`: classify the spend-to-limit
percentage; `≥ 90` ⇒ danger, else `≥ 75` ⇒ warning, else good. -/
def getBudgetHealth (spent limit : ℚ) : BudgetHealth :=
  let percentage := spent / limit * 100
  if percentage ≥ 90 then .danger
  else if percentage ≥ 75 then .warning
  else .good

/-! ## Validity predicates for the persisted round trip -/

/-- The datetime is well formed and its year fits the 4-digit
`toISOString` rendering. -/
def ValidInstant (dt : DateTime) : Prop :=
  ValidDateTime dt ∧ 0 ≤ dt.year ∧ dt.year ≤ 9999

instance (dt : DateTime) : Decidable (ValidInstant dt) := by
  unfold ValidInstant; infer_instance

/-- All three instant fields of a transaction are well-formed dates
representable in the ISO serialisation. -/
def ValidTxnDates (t : Transaction) : Prop :=
  ValidInstant t.date ∧ ValidInstant t.createdAt ∧ ValidInstant t.updatedAt

instance (t : Transaction) : Decidable (ValidTxnDates t) := by
  unfold ValidTxnDates; infer_instance

/-! ## Concrete fixtures used by witnesses and counterexamples -/

/-- The store's initial `settings` object. -/
def defaultSettings : UserSettings := ⟨"USD", false, false, true, "en"⟩

/-- The store's initial state (logged out, seeded categories). -/
def initialState : AppState :=
  ⟨[], ALL_CATEGORIES, [], defaultSettings, none, true, false⟩

/-- Storage with no keys written yet. -/
def emptyStorage : Storage := ⟨none, none, none, none⟩

/-- Midnight, January 1 of year 0 — the `toMs` epoch, so
`toString (toMs epoch0) = "0"`. -/
def epoch0 : DateTime := ⟨0, 1, 1, 0⟩

/-- A sample mid-2025 instant. -/
def d2025 : DateTime := ⟨2025, 1, 15, 0⟩

/-- A non-positive-amount input handed directly to `addTransaction`. -/
def badAmountInput : TransactionInput :=
  ⟨0, .expense, "Food & Dining", "cat_food", "coffee", d2025, none⟩

/-- An existing transaction whose id is exactly the id `addTransaction`
generates for clock `epoch0` and random suffix `"abc"`. -/
def collidingTxn : Transaction :=
  ⟨"txn_0_abc", 5, .income, "Salary", "cat_salary", "pay", epoch0, none,
   epoch0, epoch0⟩

/-- A state already holding `collidingTxn`. -/
def collisionState : AppState :=
  { initialState with transactions := [collidingTxn] }

/-- A perfectly valid input (positive amount, income type). -/
def collisionInput : TransactionInput :=
  ⟨5, .income, "Salary", "cat_salary", "pay again", epoch0, none⟩

/-- The monthly recurring definition of the specification's scenario:
`startDate = 2025-01-01`, no `endDate`, `lastProcessed` unset, active. -/
def monthlyRent : RecurringTransaction :=
  ⟨"rec1", 1200, .expense, "Bills & Utilities", "cat_bills", "Rent",
   .monthly, ⟨2025, 1, 1, 0⟩, none, none, true, ⟨2025, 1, 1, 0⟩⟩

/-- A budget for January 2025. -/
def budgetJan : Budget := ⟨"b1", "2025-01", 1000, []⟩

/-- A budget for February 2025. -/
def budgetFeb : Budget := ⟨"b2", "2025-02", 800, []⟩

/-- A state holding one budget per month (the invariant holds). -/
def budgetState : AppState :=
  { initialState with budgets := [budgetJan, budgetFeb] }

/-- A patch that moves a budget to January 2025. -/
def monthPatch : BudgetPatch := ⟨none, some "2025-01", none, none⟩

/-- A patch that leaves the month untouched. -/
def totalPatch : BudgetPatch := ⟨none, none, some 1500, none⟩

/-- A transaction with representable instants, used in round-trip and
merge witnesses. -/
def sampleTxn : Transaction :=
  ⟨"t1", 10, .expense, "Food & Dining", "cat_food", "lunch",
   ⟨2025, 6, 30, 43200000⟩, none, ⟨2025, 6, 30, 43200500⟩,
   ⟨2025, 6, 30, 43200500⟩⟩

/-- A logged-in state with one local transaction. -/
def syncState : AppState :=
  { initialState with userId := some "user1", transactions := [sampleTxn] }

/-! ## Helper lemmas -/

/-- Every month has at most 31 days. -/
theorem daysInMonth_le (y : Int) (m : Nat) : daysInMonth y m ≤ 31 := by
  unfold daysInMonth
  split_ifs <;> norm_num

/-- Reading back the digit character of a digit value. -/
theorem digitVal_digitChar : ∀ k, k < 10 → digitVal? (digitChar k) = some k := by
  decide

/-- Reading back the digit character of a remainder mod 10. -/
theorem digitVal_digitChar_mod (k : Nat) :
    digitVal? (digitChar (k % 10)) = some (k % 10) :=
  digitVal_digitChar _ (Nat.mod_lt _ (by norm_num))

/-- Parsing inverts formatting: `new Date(d.toISOString())` recovers the
instant, for any well-formed datetime with a four-digit year. -/
theorem parseISO_isoString (dt : DateTime) (h : ValidInstant dt) :
    parseISO (isoString dt) = some dt := by
  obtain ⟨⟨hm1, hm2, hd1, hd2, hms⟩, hy0, hy9⟩ := h
  have hyn : dt.year.toNat ≤ 9999 := by omega
  have hd31 : dt.day ≤ 31 := le_trans hd2 (daysInMonth_le _ _)
  simp only [isoString, pad4, pad2, pad3, List.cons_append, List.nil_append,
    parseISO, digitVal_digitChar_mod, true_and, and_self, if_true]
  have hmonth : dt.month / 10 % 10 * 10 + dt.month % 10 = dt.month := by omega
  have hday : dt.day / 10 % 10 * 10 + dt.day % 10 = dt.day := by omega
  have hyearN : dt.year.toNat / 1000 % 10 * 1000 + dt.year.toNat / 100 % 10 * 100 +
      dt.year.toNat / 10 % 10 * 10 + dt.year.toNat % 10 = dt.year.toNat := by omega
  have hyear : ((dt.year.toNat / 1000 % 10 * 1000 + dt.year.toNat / 100 % 10 * 100 +
      dt.year.toNat / 10 % 10 * 10 + dt.year.toNat % 10 : Nat) : Int) = dt.year := by
    rw [hyearN]; exact Int.toNat_of_nonneg hy0
  rw [hmonth, hday, hyear]
  rw [if_pos ⟨hm1, hm2, hd1, hd2, by omega, by omega, by omega⟩]
  have hmsrec : (dt.msOfDay / 3600000 / 10 % 10 * 10 + dt.msOfDay / 3600000 % 10) * 3600000 +
        (dt.msOfDay / 60000 % 60 / 10 % 10 * 10 + dt.msOfDay / 60000 % 60 % 10) * 60000 +
      (dt.msOfDay / 1000 % 60 / 10 % 10 * 10 + dt.msOfDay / 1000 % 60 % 10) * 1000 +
      (dt.msOfDay % 1000 / 100 % 10 * 100 + dt.msOfDay % 1000 / 10 % 10 * 10 +
        dt.msOfDay % 1000 % 10) = dt.msOfDay := by omega
  rw [hmsrec]

/-- The stored form of a transaction decodes back to the transaction
itself when its instants are representable. -/
theorem decodeStoredTxn_encodeTxn (t : Transaction) (h : ValidTxnDates t) :
    decodeStoredTxn (encodeTxn t) = t := by
  obtain ⟨h1, h2, h3⟩ := h
  simp [decodeStoredTxn, encodeTxn, jsNewDate, parseISO_isoString _ h1,
    parseISO_isoString _ h2, parseISO_isoString _ h3]

/-- The materializer's inner loop is the dedup filter over the visited
cursor dates. -/
theorem materializeLoop_eq_ref (now : DateTime) (r : RecurringTransaction)
    (existing : List Transaction) :
    ∀ (fuel : Nat) (cursor : DateTime),
      materializeLoop now r existing fuel cursor =
        ((visitedDates now r.frequency fuel cursor).filter
          (fun d => !(existing.any (matchesAuto r.description d)))).map
          (mkRecurringTxn r) := by
  intro fuel
  induction fuel with
  | zero => intro cursor; rfl
  | succ n ih =>
    intro cursor
    simp only [materializeLoop, visitedDates]
    by_cases hle : toMs cursor ≤ toMs now
    · rw [if_pos hle, if_pos hle]
      by_cases hany : existing.any (matchesAuto r.description cursor)
      · simp only [hany, if_true, List.filter_cons, Bool.not_true, ih]
        simp
      · simp only [hany, if_false, List.filter_cons, Bool.not_false, ih]
        simp [hany]
    · rw [if_neg hle, if_neg hle]
      rfl

/-- The materializer equals its read-only reference form. -/
theorem processRecurring_eq_ref (now : DateTime)
    (recs : List RecurringTransaction) (existing : List Transaction) :
    processRecurringTransactions now recs existing =
      refMaterialize now recs existing := by
  unfold processRecurringTransactions refMaterialize
  have : ∀ r : RecurringTransaction,
      (if !r.isActive then []
       else if recurringEnded now r then []
       else
         let lastProcessed := r.lastProcessed.getD r.startDate
         materializeLoop now r existing (matFuel now lastProcessed)
           (getNextDate lastProcessed r.frequency)) =
      refMaterializeOne now existing r := by
    intro r
    unfold refMaterializeOne
    by_cases h1 : !r.isActive
    · rw [if_pos h1, if_pos h1]
    · rw [if_neg h1, if_neg h1]
      by_cases h2 : recurringEnded now r
      · rw [if_pos h2, if_pos h2]
      · rw [if_neg h2, if_neg h2]
        exact materializeLoop_eq_ref now r existing _ _
  exact congrArg _ (funext this)

/-- A transaction carrying exactly the auto-tag and the cursor date
satisfies the materializer's dedup check. -/
theorem matchesAuto_of_eq (desc : String) (d : DateTime) (t : Transaction)
    (h1 : t.description = autoTag desc) (h2 : t.date = d) :
    matchesAuto desc d t = true := by
  unfold matchesAuto jsIncludes
  rw [h1, h2]
  simp only [Bool.and_eq_true, decide_eq_true_eq]
  refine ⟨⟨[], [], by simp⟩, by simp⟩

/-- Unfolding the commit fold: committing inputs one by one prepends
their realisations in reverse order. -/
theorem commitProduced_foldl (pairs : List (TransactionInput × (DateTime × String))) :
    ∀ (st : AppState) (stor : Storage),
      ((pairs.foldl
        (fun acc ps =>
          let r := addTransaction acc.1 acc.2 ps.1 ps.2.1 ps.2.2
          (r.state, r.storage))
        (st, stor)).1).transactions =
      (pairs.map (fun ps => realizeInput ps.1 ps.2.1 ps.2.2)).reverse ++ st.transactions := by
  induction pairs with
  | nil => intro st stor; simp
  | cons a l ih =>
    intro st stor
    simp only [List.foldl_cons, List.map_cons, List.reverse_cons]
    rw [ih]
    simp [addTransaction]

/-- The transaction list after committing the produced inputs. -/
theorem commitProduced_transactions (st : AppState) (stor : Storage)
    (produced : List TransactionInput) (stamps : List (DateTime × String)) :
    ((commitProduced st stor produced stamps).1).transactions =
      ((produced.zip stamps).map (fun ps => realizeInput ps.1 ps.2.1 ps.2.2)).reverse ++
        st.transactions :=
  commitProduced_foldl (produced.zip stamps) st stor

/-- Every member of the shorter list appears in the zip with the longer one. -/
theorem exists_zip_pair {α β : Type} (l : List α) (s : List β) (a : α)
    (hl : l.length ≤ s.length) (ha : a ∈ l) : ∃ b, (a, b) ∈ l.zip s := by
  induction l generalizing s with
  | nil => cases ha
  | cons x xs ih =>
    cases s with
    | nil => simp at hl
    | cons y ys =>
      rcases List.mem_cons.mp ha with rfl | hmem
      · exact ⟨y, List.mem_cons_self _ _⟩
      · obtain ⟨b, hb⟩ := ih ys (by simpa using Nat.le_of_succ_le_succ hl) hmem
        exact ⟨b, List.mem_cons_of_mem _ hb⟩

/-! ## Claim theorems -/

/-- C1 (counterexample): the claim "every call to `addTransaction` with a
non-positive amount is rejected before the in-memory list is mutated,
with state unchanged" is false on the code: `addTransaction` performs no
validation, so a direct call with amount 0 mutates the in-memory
transaction list and writes the record into the durable snapshot. -/
theorem addTransaction_no_validation_counterexample :
    badAmountInput.amount ≤ 0 ∧
    (addTransaction initialState emptyStorage badAmountInput d2025 "abc").state.transactions ≠
      initialState.transactions ∧
    (addTransaction initialState emptyStorage badAmountInput d2025 "abc").storage.transactionsKey ≠
      emptyStorage.transactionsKey := by
  decide

/-- C1 (amended): validation of a non-positive (or missing) amount lives
in the screen's `handleSave`, which rejects synchronously with an alert
before `addTransaction` is ever invoked: the in-memory state, the durable
snapshot and the remote store are all left untouched and no push is
issued. -/
theorem handleSave_rejects_nonpositive_amount (st : AppState) (stor : Storage)
    (amount : Option ℚ) (type : TransactionType)
    (selectedCategoryId description : String) (now : DateTime) (rand : String)
    (h : ∀ v, amount = some v → v ≤ 0) :
    handleSave st stor amount type selectedCategoryId description now rand =
      ⟨st, stor, [], some "Invalid Amount"⟩ := by
  cases amount with
  | none => rfl
  | some v =>
    have hv := h v rfl
    simp [handleSave, hv]

/-- C1 (witness): the rejection theorem applied to a concrete zero-amount
save attempt. -/
theorem handleSave_rejects_witness :
    handleSave initialState emptyStorage (some 0) .expense "cat_food" "" d2025 "r" =
      ⟨initialState, emptyStorage, [], some "Invalid Amount"⟩ :=
  handleSave_rejects_nonpositive_amount initialState emptyStorage (some 0) .expense
    "cat_food" "" d2025 "r" (fun v hv => by injection hv with h; exact h.ge)

/-- C2: materialization is idempotent.  For every recurring-definition
list, every `now`, and every state: run the materializer once, commit
every produced transaction through the store's normal `addTransaction`
path (one clock/random stamp per produced record), and run the
materializer again with the same `now` — the second run produces zero
transactions, because every previously produced occurrence is suppressed
by the `[Auto: ...]` tag plus 24-hour date-proximity check. -/
theorem materialize_idempotent (now : DateTime)
    (recs : List RecurringTransaction) (st : AppState) (stor : Storage)
    (stamps : List (DateTime × String))
    (hlen : (processRecurringTransactions now recs st.transactions).length ≤ stamps.length) :
    processRecurringTransactions now recs
      ((commitProduced st stor
        (processRecurringTransactions now recs st.transactions) stamps).1).transactions
      = [] := by
  rw [commitProduced_transactions]
  set produced := processRecurringTransactions now recs st.transactions with hprod
  set committedL :=
    ((produced.zip stamps).map (fun ps => realizeInput ps.1 ps.2.1 ps.2.2)).reverse
    with hcomm
  rw [processRecurring_eq_ref]
  unfold refMaterialize
  rw [List.flatMap_eq_nil_iff]
  intro r hr
  unfold refMaterializeOne
  by_cases h1 : !r.isActive
  · rw [if_pos h1]
  · rw [if_neg h1]
    by_cases h2 : recurringEnded now r
    · rw [if_pos h2]
    · rw [if_neg h2]
      dsimp only
      rw [List.map_eq_nil_iff, List.filter_eq_nil_iff]
      intro d hd
      simp only [Bool.not_eq_true', Bool.not_eq_false]
      rw [List.any_append]
      by_cases hany : st.transactions.any (matchesAuto r.description d)
      · simp [hany]
      · have hmem : mkRecurringTxn r d ∈ produced := by
          rw [hprod, processRecurring_eq_ref]
          apply List.mem_flatMap_of_mem hr
          unfold refMaterializeOne
          rw [if_neg h1, if_neg h2]
          dsimp only
          apply List.mem_map_of_mem
          rw [List.mem_filter]
          exact ⟨hd, by simp [hany]⟩
        obtain ⟨b, hb⟩ := exists_zip_pair produced stamps _ hlen hmem
        have hin : realizeInput (mkRecurringTxn r d) b.1 b.2 ∈ committedL := by
          rw [hcomm, List.mem_reverse]
          exact List.mem_map.mpr ⟨(mkRecurringTxn r d, b), hb, rfl⟩
        have hmatch : matchesAuto r.description d (realizeInput (mkRecurringTxn r d) b.1 b.2) = true :=
          matchesAuto_of_eq _ _ _ rfl rfl
        have : committedL.any (matchesAuto r.description d) = true :=
          List.any_eq_true.mpr ⟨_, hin, hmatch⟩
        simp [this]

/-- C2 (witness): idempotence at a concrete instance — a monthly
definition materialized at 2025-02-10, its single produced occurrence
committed, then materialized again at the same instant: zero new
transactions. -/
theorem materialize_idempotent_witness :
    processRecurringTransactions ⟨2025, 2, 10, 0⟩ [monthlyRent]
      ((commitProduced initialState emptyStorage
        (processRecurringTransactions ⟨2025, 2, 10, 0⟩ [monthlyRent]
          initialState.transactions)
        [(⟨2025, 2, 10, 0⟩, "r1")]).1).transactions = [] :=
  materialize_idempotent ⟨2025, 2, 10, 0⟩ [monthlyRent] initialState emptyStorage
    [(⟨2025, 2, 10, 0⟩, "r1")] (by decide)

/-- C3: the bootstrap merge after identity attach.  With a user attached:
if the remote transaction collection is empty, the merge pushes exactly
the local transactions (one `syncTransaction` call per record, in order)
and leaves the local list unchanged; if the remote collection is
non-empty, the local list becomes exactly the remote records (no
per-item timestamp comparison) and nothing is pushed. -/
theorem syncWithFirestore_bootstrap (st : AppState) (stor : Storage)
    (remoteTxns : List Transaction) (remoteCats : List Category)
    (remoteBudgets : List Budget) (remoteSettings : Option UserSettings)
    (u : String) (hu : st.userId = some u) :
    (remoteTxns = [] →
      (syncWithFirestore st stor remoteTxns remoteCats remoteBudgets remoteSettings).pushedTxns =
        st.transactions ∧
      (syncWithFirestore st stor remoteTxns remoteCats remoteBudgets remoteSettings).state.transactions =
        st.transactions) ∧
    (remoteTxns ≠ [] →
      (syncWithFirestore st stor remoteTxns remoteCats remoteBudgets remoteSettings).state.transactions =
        remoteTxns ∧
      (syncWithFirestore st stor remoteTxns remoteCats remoteBudgets remoteSettings).pushedTxns =
        []) := by
  unfold syncWithFirestore
  rw [hu]
  dsimp only
  constructor
  · rintro rfl
    refine ⟨?_, by simp⟩
    by_cases hl : 0 < st.transactions.length
    · simp [hl]
    · have h0 : st.transactions = [] := List.length_eq_zero.mp (by omega)
      simp [h0]
  · intro hne
    have hlen : 0 < remoteTxns.length := List.length_pos.mpr hne
    have hnz : remoteTxns.length ≠ 0 := Nat.pos_iff_ne_zero.mp hlen
    exact ⟨by simp [hlen], by simp [hnz]⟩

/-- C3 (witness): the bootstrap-merge theorem at a logged-in state with
one local transaction and an empty remote collection. -/
theorem syncWithFirestore_bootstrap_witness :
    (syncWithFirestore syncState emptyStorage [] [] [] none).pushedTxns =
      syncState.transactions ∧
    (syncWithFirestore syncState emptyStorage [] [] [] none).state.transactions =
      syncState.transactions :=
  (syncWithFirestore_bootstrap syncState emptyStorage [] [] [] none "user1" rfl).1 rfl

/-- C4: the real-time listener callback replaces the in-memory
transaction list wholesale with the delivered snapshot (no merge with
pending local state) and persists exactly that snapshot to the
transactions storage key, while categories, budgets and settings — in
memory and on disk — are left unchanged. -/
theorem realtime_snapshot_wholesale (st : AppState) (stor : Storage)
    (snapshot : List Transaction) :
    (onTransactionsSnapshot st stor snapshot).1.transactions = snapshot ∧
    (onTransactionsSnapshot st stor snapshot).2.transactionsKey =
      some (snapshot.map encodeTxn) ∧
    (onTransactionsSnapshot st stor snapshot).1.categories = st.categories ∧
    (onTransactionsSnapshot st stor snapshot).1.budgets = st.budgets ∧
    (onTransactionsSnapshot st stor snapshot).1.settings = st.settings ∧
    (onTransactionsSnapshot st stor snapshot).2.categoriesKey = stor.categoriesKey ∧
    (onTransactionsSnapshot st stor snapshot).2.budgetsKey = stor.budgetsKey ∧
    (onTransactionsSnapshot st stor snapshot).2.settingsKey = stor.settingsKey :=
  ⟨rfl, rfl, rfl, rfl, rfl, rfl, rfl, rfl⟩

/-- C5: the persisted round trip.  For every state whose transaction
instants are representable, `save()` followed by `load()` reproduces all
four collections field-for-field, with every instant field revived from
its ISO-8601 string to an instant equal by value. -/
theorem saveData_loadData_roundtrip (st st₂ : AppState) (stor : Storage)
    (h : ∀ t ∈ st.transactions, ValidTxnDates t) :
    (loadData (saveData st stor) st₂).transactions = st.transactions ∧
    (loadData (saveData st stor) st₂).categories = st.categories ∧
    (loadData (saveData st stor) st₂).budgets = st.budgets ∧
    (loadData (saveData st stor) st₂).settings = st.settings := by
  refine ⟨?_, rfl, rfl, rfl⟩
  show (st.transactions.map encodeTxn).map decodeStoredTxn = st.transactions
  rw [List.map_map]
  have hc : ∀ t ∈ st.transactions, (decodeStoredTxn ∘ encodeTxn) t = id t :=
    fun t ht => decodeStoredTxn_encodeTxn t (h t ht)
  rw [List.map_congr_left hc, List.map_id]

/-- C5 (witness): the round-trip theorem at a concrete one-transaction
state. -/
theorem saveData_loadData_roundtrip_witness :
    (∀ t ∈ syncState.transactions, ValidTxnDates t) ∧
    (loadData (saveData syncState emptyStorage) initialState).transactions =
      syncState.transactions ∧
    (loadData (saveData syncState emptyStorage) initialState).settings =
      syncState.settings :=
  ⟨by decide,
   (saveData_loadData_roundtrip syncState initialState emptyStorage (by decide)).1,
   (saveData_loadData_roundtrip syncState initialState emptyStorage (by decide)).2.2.2⟩

/-- C6: the monthly recurring scenario.  A monthly definition with
`startDate = 2025-01-01`, `lastProcessed` unset, no `endDate` and active,
materialized at `now = 2025-04-15` against a transaction list with no
matching auto-tagged records, produces exactly the three occurrences
2025-02-01, 2025-03-01 and 2025-04-01 — advance-before-check, so no
occurrence at the start date itself. -/
theorem recurring_monthly_scenario :
    processRecurringTransactions ⟨2025, 4, 15, 0⟩ [monthlyRent] [] =
      [⟨1200, .expense, "Bills & Utilities", "cat_bills", "[Auto: Rent]", ⟨2025, 2, 1, 0⟩, none⟩,
       ⟨1200, .expense, "Bills & Utilities", "cat_bills", "[Auto: Rent]", ⟨2025, 3, 1, 0⟩, none⟩,
       ⟨1200, .expense, "Bills & Utilities", "cat_bills", "[Auto: Rent]", ⟨2025, 4, 1, 0⟩, none⟩] := by
  decide

/-- C7 (counterexample): the claim "the new record's id is distinct from
every id already present" fails when the clock/random oracle repeats a
pair already used: with an existing record whose id is `txn_0_abc`, a
perfectly valid add at the same clock reading and random suffix
duplicates the id. -/
theorem addTransaction_id_collision_counterexample :
    collisionInput.amount > 0 ∧
    (addTransaction collisionState emptyStorage collisionInput epoch0 "abc").state.transactions.map
      Transaction.id = ["txn_0_abc", "txn_0_abc"] := by
  decide

/-- C7 (amended): for every input and prior list, `addTransaction`
increases the count by exactly 1 and prepends the realised record; the
generated id `txn_<clock>_<rand>` is distinct from every existing id
precisely when that string is not already present — the store makes no
collision check, so uniqueness rests on the clock/randomness pair not
repeating. -/
theorem addTransaction_count_and_fresh_id (st : AppState) (stor : Storage)
    (input : TransactionInput) (now : DateTime) (rand : String) :
    (addTransaction st stor input now rand).state.transactions.length =
      st.transactions.length + 1 ∧
    (addTransaction st stor input now rand).state.transactions =
      realizeInput input now rand :: st.transactions ∧
    (genTxnId now rand ∉ st.transactions.map Transaction.id →
      ∀ t ∈ st.transactions, (realizeInput input now rand).id ≠ t.id) := by
  refine ⟨by simp [addTransaction], rfl, ?_⟩
  intro h t ht heq
  apply h
  rw [show genTxnId now rand = t.id from heq]
  exact List.mem_map_of_mem Transaction.id ht

/-- C7 (witness): count and freshness at a concrete state whose only
existing id differs from the generated one. -/
theorem addTransaction_count_witness :
    (addTransaction syncState emptyStorage collisionInput d2025 "xyz").state.transactions.length =
      syncState.transactions.length + 1 ∧
    ∀ t ∈ syncState.transactions, (realizeInput collisionInput d2025 "xyz").id ≠ t.id :=
  ⟨(addTransaction_count_and_fresh_id syncState emptyStorage collisionInput d2025 "xyz").1,
   (addTransaction_count_and_fresh_id syncState emptyStorage collisionInput d2025 "xyz").2.2
     (by decide)⟩

/-- C8 (counterexample): `updateBudget` does not preserve the
one-budget-per-month invariant: starting from distinct months 2025-01
and 2025-02, patching the second budget's month to 2025-01 leaves two
budgets with the same month. -/
theorem updateBudget_month_collision_counterexample :
    (budgetState.budgets.map Budget.month).Nodup ∧
    (updateBudget budgetState emptyStorage "b2" monthPatch).state.budgets.map Budget.month =
      ["2025-01", "2025-01"] ∧
    ¬ ((updateBudget budgetState emptyStorage "b2" monthPatch).state.budgets.map
        Budget.month).Nodup := by
  decide

/-- C8 (amended): `setBudget` always preserves month uniqueness (it
removes any budget with the submitted month before appending), and
`updateBudget` preserves it when the patch leaves the month unchanged; a
month-changing patch can break the invariant, as the counterexample
shows. -/
theorem budget_month_uniqueness (st : AppState) (stor : Storage) (b : Budget)
    (id : String) (p : BudgetPatch)
    (hnd : (st.budgets.map Budget.month).Nodup) :
    ((setBudget st stor b).state.budgets.map Budget.month).Nodup ∧
    (p.month = none →
      ((updateBudget st stor id p).state.budgets.map Budget.month).Nodup) := by
  constructor
  · show ((st.budgets.filter (fun bb => bb.month ≠ b.month) ++ [b]).map Budget.month).Nodup
    rw [List.map_append]
    rw [List.nodup_append]
    refine ⟨?_, List.nodup_singleton _, ?_⟩
    · exact hnd.sublist ((List.filter_sublist _).map Budget.month)
    · intro x hx
      obtain ⟨bb, hbb, rfl⟩ := List.mem_map.mp hx
      have := List.of_mem_filter hbb
      simp only [List.mem_map, List.mem_singleton]
      simp only [decide_eq_true_eq] at this
      rintro ⟨a, rfl, ha⟩
      exact this ha.symm
  · intro hp
    show ((st.budgets.map fun bb =>
        if bb.id = id then applyBudgetPatch bb p else bb).map Budget.month).Nodup
    rw [List.map_map]
    have : (Budget.month ∘ fun bb => if bb.id = id then applyBudgetPatch bb p else bb) =
        Budget.month := by
      funext bb
      by_cases hb : bb.id = id <;> simp [hb, applyBudgetPatch, hp]
    rw [this]
    exact hnd

/-- C8 (witness): the preservation theorem at a concrete two-budget state
with a month-preserving patch. -/
theorem budget_month_uniqueness_witness :
    ((budgetState.budgets.map Budget.month).Nodup) ∧
    ((setBudget budgetState emptyStorage budgetJan).state.budgets.map Budget.month).Nodup ∧
    ((updateBudget budgetState emptyStorage "b2" totalPatch).state.budgets.map Budget.month).Nodup :=
  ⟨by decide,
   (budget_month_uniqueness budgetState emptyStorage budgetJan "b2" totalPatch (by decide)).1,
   (budget_month_uniqueness budgetState emptyStorage budgetJan "b2" totalPatch (by decide)).2
     (by decide)⟩

/-- C9: budget health classification is half-open at both boundaries:
for every spend and positive limit, a spend-to-limit ratio strictly
below 75% is good, from exactly 75% up to strictly below 90% is warning,
and from exactly 90% on is danger. -/
theorem getBudgetHealth_boundaries (spent limit : ℚ) (h : 0 < limit) :
    (getBudgetHealth spent limit = .good ↔ spent / limit < 75 / 100) ∧
    (getBudgetHealth spent limit = .warning ↔
      75 / 100 ≤ spent / limit ∧ spent / limit < 90 / 100) ∧
    (getBudgetHealth spent limit = .danger ↔ 90 / 100 ≤ spent / limit) := by
  have e1 : spent / limit * 100 ≥ 90 ↔ 90 / 100 ≤ spent / limit := by
    constructor <;> intro hx <;> linarith
  have e2 : spent / limit * 100 ≥ 75 ↔ 75 / 100 ≤ spent / limit := by
    constructor <;> intro hx <;> linarith
  unfold getBudgetHealth
  dsimp only
  split_ifs with h1 h2
  · refine ⟨⟨fun hx => by simp at hx, fun hx => by linarith [e1.mp h1]⟩,
      ⟨fun hx => by simp at hx, fun hx => by linarith [e1.mp h1, hx.2]⟩,
      ⟨fun _ => e1.mp h1, fun _ => rfl⟩⟩
  · refine ⟨⟨fun hx => by simp at hx, fun hx => by linarith [e2.mp h2]⟩,
      ⟨fun _ => ⟨e2.mp h2, by by_contra hc; exact h1 (e1.mpr (le_of_not_lt hc))⟩,
        fun _ => rfl⟩,
      ⟨fun hx => by simp at hx, fun hx => absurd (e1.mpr hx) h1⟩⟩
  · refine ⟨⟨fun _ => by by_contra hc; exact h2 (e2.mpr (le_of_not_lt hc)), fun _ => rfl⟩,
      ⟨fun hx => by simp at hx, fun hx => absurd (e2.mpr hx.1) h2⟩,
      ⟨fun hx => by simp at hx, fun hx => absurd (e1.mpr hx) h1⟩⟩

/-- C9 (witness): exactly 75% classifies as warning. -/
theorem getBudgetHealth_boundaries_witness :
    (0:ℚ) < 100 ∧ getBudgetHealth 75 100 = .warning :=
  ⟨by norm_num,
   ((getBudgetHealth_boundaries 75 100 (by norm_num)).2.1).mpr (by norm_num)⟩

/-- C10: the materializer is read-only.  `processRecurringTransactions`
equals a pure reference function of its arguments: for each definition
the cursor starts at `lastProcessed ?? startDate` (no cursor is ever
advanced or written back — the function returns only the list of new
records, leaving both argument collections untouched), and an occurrence
is suppressed exactly when the *input* transaction list already contains
a record matching the `[Auto: ...]` tag within 24 hours — duplicate
suppression across invocations rests entirely on that check. -/
theorem materializer_readonly_characterisation (now : DateTime)
    (recs : List RecurringTransaction) (existing : List Transaction) :
    processRecurringTransactions now recs existing =
      refMaterialize now recs existing :=
  processRecurring_eq_ref now recs existing

end FinanceTracker
